import Mathlib

/-!
Verification of the hh-validator server (`src/server/main.go`).

Go strings are modelled as lists of characters (`GoStr`).  All inputs the
server handles are ASCII, where Go's byte indices and our character indices
coincide; the helper functions below embed the `strings` package functions
the server uses (`Split`, `Contains`, `Index`, `TrimSpace`).
-/

/-- Go strings, modelled as lists of characters. -/
abbrev GoStr := List Char

/-- Embeds `strings.HasPrefix`-style matching: `strHasPref pat s` is true
when `pat` occurs at the head of `s`. -/
def strHasPref : GoStr → GoStr → Bool
  | [], _ => true
  | _ :: _, [] => false
  | p :: pt, c :: ct => p == c && strHasPref pt ct

/-- Worker for `strIndex`: the index (counted from `k`) of the first
occurrence of `pat` in `s`, or `none`. -/
def strIndexFrom (pat : GoStr) : GoStr → Nat → Option Nat
  | [], k => if strHasPref pat [] = true then some k else none
  | c :: t, k =>
    if strHasPref pat (c :: t) = true then some k else strIndexFrom pat t (k + 1)

/-- Embeds `strings.Index(s, pat)`: the position of the first occurrence of
`pat` in `s`; `none` stands for Go's `-1`. -/
def strIndex (s pat : GoStr) : Option Nat := strIndexFrom pat s 0

/-- Embeds `strings.Contains(s, pat)`. -/
def strContains (s pat : GoStr) : Bool := (strIndex s pat).isSome

/-- Embeds `strings.Split(s, "\n")`. -/
def splitLines : GoStr → List GoStr
  | [] => [[]]
  | c :: t =>
    if c = '\n' then [] :: splitLines t
    else
      match splitLines t with
      | [] => [[c]]
      | l :: ls => (c :: l) :: ls

/-- Embeds Go's `unicode.IsSpace` (the White_Space property), which
`strings.TrimSpace` trims. -/
def goIsSpace (c : Char) : Bool :=
  let n := c.toNat
  (9 ≤ n && n ≤ 13) || n = 32 || n = 0x85 || n = 0xA0 || n = 0x1680 ||
    (0x2000 ≤ n && n ≤ 0x200A) || n = 0x2028 || n = 0x2029 || n = 0x202F ||
    n = 0x205F || n = 0x3000

/-- Drops leading white space. -/
def trimLeftSpace : GoStr → GoStr
  | [] => []
  | c :: t => if goIsSpace c = true then trimLeftSpace t else c :: t

/-- Embeds `strings.TrimSpace`: drops leading and trailing white space. -/
def trimSpace (s : GoStr) : GoStr :=
  (trimLeftSpace (trimLeftSpace s).reverse).reverse

/-- The error marker token `"ERR"` the server searches the tool output for. -/
def errTok : GoStr := "ERR".toList

/-- The marker followed by a space, `"ERR "`, after which the error summary
is extracted. -/
def errTokSp : GoStr := "ERR ".toList

/-- The fixed sentinel returned by `extractErrorMessage` when no marker line
is found (`"Unknown validation error"` in `server/main.go`). -/
def unknownErr : GoStr := "Unknown validation error".toList

/-- The line loop of `extractErrorMessage` in `server/main.go`: for each
line, if it contains `"ERR"` and `"ERR "` occurs at index `idx`, return the
trimmed text after `"ERR "`; otherwise continue; sentinel at the end. -/
def extractLoop : List GoStr → GoStr
  | [] => unknownErr
  | line :: rest =>
    if strContains line errTok = true then
      match strIndex line errTokSp with
      | some idx => trimSpace (line.drop (idx + 4))
      | none => extractLoop rest
    else extractLoop rest

/-- Embeds `extractErrorMessage` from `server/main.go`: split the output on
newlines and run the extraction loop. -/
def extractErrorMessage (output : GoStr) : GoStr :=
  extractLoop (splitLines output)

/-- The `TimeoutSec` constant declared in `server/main.go` (30 seconds).
It is declared in the source but never referenced by the handler. -/
def TimeoutSec : Nat := 30

/-- The parsed multipart form, as the handler sees it: how many files were
uploaded under the `"wiring"` key and under the `"fab"` key. -/
structure Form where
  wiringCount : Nat
  fabCount : Nat
deriving DecidableEq

/-- The external commands `validateFiles` can spawn. -/
inductive Cmd where
  | initCmd
  | validateCmd
deriving DecidableEq

/-- Outcomes of the environment-dependent steps of one request: whether
`c.MultipartForm`, `os.MkdirTemp`, `c.SaveUploadedFile`, `os.MkdirAll` and
the two `hhfab` invocations succeed, the `err.Error()` strings they produce
on failure, the combined outputs captured from the two subprocesses, and
the wall-clock seconds the `hhfab validate` subprocess runs before exiting. -/
structure Env where
  parseOk : Bool
  parseErrMsg : GoStr
  mkdirTempOk : Bool
  mkdirTempErrMsg : GoStr
  saveWiringOk : Bool
  saveWiringErrMsg : GoStr
  saveFabOk : Bool
  saveFabErrMsg : GoStr
  mkdirWorkOk : Bool
  mkdirWorkErrMsg : GoStr
  initExitOk : Bool
  initErrMsg : GoStr
  initOutput : GoStr
  validateExitOk : Bool
  validateErrMsg : GoStr
  validateOutput : GoStr
  validateDurationSec : Nat

/-- The JSON response envelope (`ValidateResponse` in `server/main.go`)
together with the HTTP status it is sent with.  Fields the Go code leaves
unset hold the zero value `""`. -/
structure ValidateResponse where
  status : Nat
  success : Bool
  message : GoStr
  output : GoStr
  useCase : GoStr
  error : GoStr
deriving DecidableEq

/-- Observable side effects of one request: whether the temporary directory
was created, which `hhfab` commands ran, and how many seconds the handler
blocked waiting on `hhfab validate` (0 when it never ran).  The wait equals
the subprocess duration because `CombinedOutput()` is called with no
deadline or context and `TimeoutSec` is never applied. -/
structure Trace where
  tempDirCreated : Bool
  cmdsRun : List Cmd
  validateWaitSec : Nat
deriving DecidableEq

/-- The JSON `error` field carries `json:"error,omitempty"`, so it is
present in the serialized response exactly when the string is non-empty. -/
def errorFieldPresent (r : ValidateResponse) : Bool := r.error != []

/-- Embeds the `validateFiles` handler of `server/main.go`, branch for
branch: parse the form, require a wiring file, pick the use case, create
the temp dir, save the wiring (and in uc2 the fab) file, create the work
dir, run `hhfab init`, run `hhfab validate`, and classify a non-zero
validate exit by whether its output contains `"ERR"`. -/
def validateFiles (form : Form) (env : Env) : ValidateResponse × Trace :=
  if env.parseOk = false then
    ({ status := 400, success := false,
       message := "Failed to parse multipart form".toList,
       output := [], useCase := [], error := env.parseErrMsg },
     { tempDirCreated := false, cmdsRun := [], validateWaitSec := 0 })
  else if form.wiringCount = 0 then
    ({ status := 400, success := false,
       message := "Missing required wiring file".toList,
       output := [], useCase := [], error := "wiring file is required".toList },
     { tempDirCreated := false, cmdsRun := [], validateWaitSec := 0 })
  else if env.mkdirTempOk = false then
    ({ status := 500, success := false,
       message := "Failed to create temporary directory".toList,
       output := [], useCase := [], error := env.mkdirTempErrMsg },
     { tempDirCreated := false, cmdsRun := [], validateWaitSec := 0 })
  else if env.saveWiringOk = false then
    ({ status := 500, success := false,
       message := "Failed to save wiring file".toList,
       output := [], useCase := [], error := env.saveWiringErrMsg },
     { tempDirCreated := true, cmdsRun := [], validateWaitSec := 0 })
  else if 0 < form.fabCount ∧ env.saveFabOk = false then
    ({ status := 500, success := false,
       message := "Failed to save fab file".toList,
       output := [], useCase := [], error := env.saveFabErrMsg },
     { tempDirCreated := true, cmdsRun := [], validateWaitSec := 0 })
  else if env.mkdirWorkOk = false then
    ({ status := 500, success := false,
       message := "Failed to create work directory".toList,
       output := [], useCase := [], error := env.mkdirWorkErrMsg },
     { tempDirCreated := true, cmdsRun := [], validateWaitSec := 0 })
  else if env.initExitOk = false then
    ({ status := 400, success := false,
       message := "Failed to initialize hhfab".toList,
       output := env.initOutput,
       useCase := if 0 < form.fabCount then "uc2".toList else "uc1".toList,
       error := "hhfab init failed: ".toList ++ env.initErrMsg },
     { tempDirCreated := true, cmdsRun := [Cmd.initCmd], validateWaitSec := 0 })
  else if env.validateExitOk = false then
    if strContains env.validateOutput errTok = true then
      ({ status := 400, success := false,
         message := "Validation failed".toList,
         output := env.validateOutput,
         useCase := if 0 < form.fabCount then "uc2".toList else "uc1".toList,
         error := extractErrorMessage env.validateOutput },
       { tempDirCreated := true, cmdsRun := [Cmd.initCmd, Cmd.validateCmd],
         validateWaitSec := env.validateDurationSec })
    else
      ({ status := 500, success := false,
         message := "Failed to run validation".toList,
         output := env.validateOutput,
         useCase := if 0 < form.fabCount then "uc2".toList else "uc1".toList,
         error := env.validateErrMsg },
       { tempDirCreated := true, cmdsRun := [Cmd.initCmd, Cmd.validateCmd],
         validateWaitSec := env.validateDurationSec })
  else
    ({ status := 200, success := true,
       message := "Fabricator config and wiring are valid".toList,
       output := env.validateOutput,
       useCase := if 0 < form.fabCount then "uc2".toList else "uc1".toList,
       error := [] },
     { tempDirCreated := true, cmdsRun := [Cmd.initCmd, Cmd.validateCmd],
       validateWaitSec := env.validateDurationSec })

/-- Reference extraction for one line, following the claim text: the
whitespace-trimmed remainder of the line after the first occurrence of
`"ERR "`. -/
def specExtractLine (l : GoStr) : GoStr :=
  match strIndex l errTokSp with
  | some idx => trimSpace (l.drop (idx + 4))
  | none => unknownErr

/-- Reference search, following the claim text: the result is determined by
the first line containing `"ERR "`; lines containing `"ERR"` without a
following space are skipped; the sentinel is returned when no line
contains `"ERR "`. -/
def specLoop : List GoStr → GoStr
  | [] => unknownErr
  | l :: ls => if strContains l errTokSp = true then specExtractLine l else specLoop ls

/-- Reference formalisation of the error-summary extraction written from
the claim's words, to be compared with `extractErrorMessage`. -/
def extractSpecRef (s : GoStr) : GoStr := specLoop (splitLines s)

/-- A form carrying the required wiring file and no fab file. -/
def formWiringOnly : Form := { wiringCount := 1, fabCount := 0 }

/-- A form carrying both the wiring file and a fab file. -/
def formBothFiles : Form := { wiringCount := 1, fabCount := 1 }

/-- A form with no files at all. -/
def formEmpty : Form := { wiringCount := 0, fabCount := 0 }

/-- An environment in which every request step succeeds. -/
def envAllOk : Env :=
  { parseOk := true, parseErrMsg := "e".toList,
    mkdirTempOk := true, mkdirTempErrMsg := "e".toList,
    saveWiringOk := true, saveWiringErrMsg := "e".toList,
    saveFabOk := true, saveFabErrMsg := "e".toList,
    mkdirWorkOk := true, mkdirWorkErrMsg := "e".toList,
    initExitOk := true, initErrMsg := "e".toList, initOutput := [],
    validateExitOk := true, validateErrMsg := "e".toList,
    validateOutput := "06:37:39 INF Fabricator config and wiring are valid".toList,
    validateDurationSec := 1 }

/-- An environment where `hhfab validate` exits non-zero with an `ERR`
marker line in its output. -/
def envValidateFailErr : Env :=
  { envAllOk with
    validateExitOk := false,
    validateOutput := "06:38:17 ERR validating: some error occurred".toList }

/-- An environment where `hhfab validate` exits non-zero with no marker in
its output. -/
def envValidateFailNoErr : Env :=
  { envAllOk with
    validateExitOk := false,
    validateOutput := "something crashed".toList }

/-- An environment where `hhfab validate` exits non-zero and its output is
exactly `"ERR "`, so the extracted summary is empty. -/
def envValidateFailBareErr : Env :=
  { envAllOk with validateExitOk := false, validateOutput := "ERR ".toList }

/-- An environment where creating the temporary directory fails. -/
def envTempDirFail : Env := { envAllOk with mkdirTempOk := false }

/-- An environment where saving the uploaded wiring file fails. -/
def envSaveWiringFail : Env := { envAllOk with saveWiringOk := false }

/-- An environment where the `hhfab validate` subprocess runs for 31
seconds before exiting. -/
def envSlowValidate : Env := { envAllOk with validateDurationSec := 31 }

theorem strHasPref_append (p q : GoStr) :
    ∀ s : GoStr, strHasPref (p ++ q) s = true → strHasPref p s = true := by
  induction p with
  | nil => intro s _; rfl
  | cons a pt ih =>
    intro s h
    cases s with
    | nil => simp [strHasPref] at h
    | cons c ct =>
      simp only [List.cons_append, strHasPref, Bool.and_eq_true, beq_iff_eq] at h ⊢
      exact ⟨h.1, ih ct h.2⟩

theorem strIndexFrom_isSome_mono (p q : GoStr) :
    ∀ (s : GoStr) (k : Nat),
      (strIndexFrom (p ++ q) s k).isSome = true →
      (strIndexFrom p s k).isSome = true := by
  intro s
  induction s with
  | nil =>
    intro k h
    simp only [strIndexFrom] at h ⊢
    split at h
    · next hp => rw [if_pos (strHasPref_append p q [] hp)]; rfl
    · simp at h
  | cons c t ih =>
    intro k h
    simp only [strIndexFrom] at h ⊢
    by_cases hp : strHasPref p (c :: t) = true
    · rw [if_pos hp]; rfl
    · rw [if_neg hp]
      have hpq : ¬ strHasPref (p ++ q) (c :: t) = true := by
        intro hc
        exact hp (strHasPref_append p q _ hc)
      rw [if_neg hpq] at h
      exact ih (k + 1) h

theorem strContains_mono (s p q : GoStr) (h : strContains s (p ++ q) = true) :
    strContains s p = true :=
  strIndexFrom_isSome_mono p q s 0 h

theorem strContains_errTok_of_sp (l : GoStr) (h : strContains l errTokSp = true) :
    strContains l errTok = true := by
  have he : errTokSp = errTok ++ [' '] := by decide
  exact strContains_mono l errTok [' '] (he ▸ h)

theorem extractLoop_sentinel :
    ∀ ls : List GoStr, (∀ l ∈ ls, strContains l errTok = false) →
      extractLoop ls = unknownErr := by
  intro ls
  induction ls with
  | nil => intro _; rfl
  | cons l rest ih =>
    intro h
    have hl : strContains l errTok = false := h l (List.mem_cons_self l rest)
    simp only [extractLoop]
    rw [if_neg (by simp [hl])]
    exact ih (fun x hx => h x (List.mem_cons_of_mem l hx))

theorem extractLoop_eq_specLoop : ∀ ls : List GoStr, extractLoop ls = specLoop ls := by
  intro ls
  induction ls with
  | nil => rfl
  | cons l rest ih =>
    by_cases hc : strContains l errTokSp = true
    · have hcc : strContains l errTok = true := strContains_errTok_of_sp l hc
      simp only [extractLoop, specLoop, specExtractLine]
      rw [if_pos hcc, if_pos hc]
      have hsome : (strIndex l errTokSp).isSome = true := hc
      rcases Option.isSome_iff_exists.mp hsome with ⟨i, hi⟩
      rw [hi]
    · simp only [extractLoop, specLoop]
      rw [if_neg hc]
      by_cases hcc : strContains l errTok = true
      · rw [if_pos hcc]
        have hnone : strIndex l errTokSp = none := by
          cases hx : strIndex l errTokSp with
          | none => rfl
          | some i =>
            exact absurd (by simp [strContains, hx] : strContains l errTokSp = true) hc
        rw [hnone]
        exact ih
      · rw [if_neg hcc]; exact ih

theorem initErrPref_ne_nil (m : GoStr) : "hhfab init failed: ".toList ++ m ≠ [] := by
  intro h
  have h2 := List.append_eq_nil.mp h
  have h3 : ("hhfab init failed: ".toList : GoStr) ≠ [] := by decide
  exact h3 h2.1

theorem wiringRequired_ne_nil : ("wiring file is required".toList : GoStr) ≠ [] := by
  decide

theorem useCase_cases (form : Form) (env : Env) :
    (validateFiles form env).1.useCase = [] ∨
    (validateFiles form env).1.useCase =
      (if 0 < form.fabCount then "uc2".toList else "uc1".toList) := by
  unfold validateFiles
  repeat' split
  all_goals simp

theorem success_error_cases (form : Form) (env : Env) :
    ((validateFiles form env).1.success = true ∧
      (validateFiles form env).1.error = []) ∨
    ((validateFiles form env).1.success = false ∧
      ((validateFiles form env).1.error = env.parseErrMsg ∨
       (validateFiles form env).1.error = "wiring file is required".toList ∨
       (validateFiles form env).1.error = env.mkdirTempErrMsg ∨
       (validateFiles form env).1.error = env.saveWiringErrMsg ∨
       (validateFiles form env).1.error = env.saveFabErrMsg ∨
       (validateFiles form env).1.error = env.mkdirWorkErrMsg ∨
       (validateFiles form env).1.error = "hhfab init failed: ".toList ++ env.initErrMsg ∨
       (validateFiles form env).1.error = extractErrorMessage env.validateOutput ∨
       (validateFiles form env).1.error = env.validateErrMsg)) := by
  unfold validateFiles
  repeat' split
  all_goals simp

/-- C5 counterexample: on an output text none of whose lines contains the
marker token, the extraction returns `"Unknown validation error"`, not the
string `"unknown error"` the claim states. -/
theorem c5_counterexample :
    (∀ l ∈ splitLines "06:37:39 INF Fabricator config and wiring are valid".toList,
        strContains l errTok = false) ∧
    extractErrorMessage "06:37:39 INF Fabricator config and wiring are valid".toList ≠
      "unknown error".toList := by
  decide

/-- C5 (amended): for every output text in which no line contains the
error-marker token `"ERR"`, the extraction function returns the fixed
sentinel string `"Unknown validation error"`. -/
theorem c5_no_marker_sentinel (s : GoStr)
    (h : ∀ l ∈ splitLines s, strContains l errTok = false) :
    extractErrorMessage s = "Unknown validation error".toList :=
  extractLoop_sentinel (splitLines s) h

/-- C5 witness: the amended sentinel theorem at a concrete marker-free
output. -/
theorem c5_no_marker_sentinel_witness :
    extractErrorMessage "06:37:39 INF ok".toList =
      "Unknown validation error".toList :=
  c5_no_marker_sentinel ("06:37:39 INF ok".toList) (by decide)

/-- C6 counterexample: extraction is not idempotent; on the spec's own
scenario input, applying the extraction to its own result changes it
(the re-extraction yields the sentinel, since the summary has no marker). -/
theorem c6_counterexample :
    extractErrorMessage
        (extractErrorMessage "06:38:17 ERR validating: some error occurred".toList) ≠
      extractErrorMessage "06:38:17 ERR validating: some error occurred".toList := by
  decide

/-- C6 (amended): the extraction is pure and deterministic (equal inputs
give equal summaries), and it is idempotent on every output whose
extraction yields the sentinel — in particular the sentinel itself is a
fixed point — though not on outputs with a non-sentinel summary. -/
theorem c6_pure_and_sentinel_idem (s t : GoStr) (hst : s = t) :
    extractErrorMessage s = extractErrorMessage t ∧
    (extractErrorMessage s = unknownErr →
      extractErrorMessage (extractErrorMessage s) = extractErrorMessage s) := by
  subst hst
  refine ⟨rfl, fun h => ?_⟩
  rw [h]
  decide

/-- C6 witness: the amended purity theorem at a concrete input. -/
theorem c6_pure_and_sentinel_idem_witness :
    extractErrorMessage "06:38:17 INF ok".toList =
        extractErrorMessage "06:38:17 INF ok".toList ∧
    (extractErrorMessage "06:38:17 INF ok".toList = unknownErr →
      extractErrorMessage (extractErrorMessage "06:38:17 INF ok".toList) =
        extractErrorMessage "06:38:17 INF ok".toList) :=
  c6_pure_and_sentinel_idem ("06:38:17 INF ok".toList) ("06:38:17 INF ok".toList) rfl

/-- C10: the extraction function coincides, on every input string, with the
reference function written from the claim: the result is determined by the
first line containing `"ERR "` (trimmed remainder after its first
occurrence), lines containing `"ERR"` without a following space are
skipped, and the sentinel is returned when no line contains `"ERR "`. -/
theorem c10_extract_refines_spec (s : GoStr) :
    extractErrorMessage s = extractSpecRef s :=
  extractLoop_eq_specLoop (splitLines s)

/-- C1: for every request in which the `hhfab validate` subprocess ran, the
response's output field equals the captured combined output of that
subprocess verbatim, on the success path and on both failure paths. -/
theorem c1_output_verbatim (form : Form) (env : Env)
    (h : Cmd.validateCmd ∈ (validateFiles form env).2.cmdsRun) :
    (validateFiles form env).1.output = env.validateOutput := by
  unfold validateFiles at h ⊢
  repeat' split at h
  all_goals simp_all

/-- C1 witness: the output round-trip at a concrete failing validation. -/
theorem c1_output_verbatim_witness :
    (validateFiles formWiringOnly envValidateFailErr).1.output =
      envValidateFailErr.validateOutput :=
  c1_output_verbatim formWiringOnly envValidateFailErr (by decide)

/-- C2: when the `hhfab validate` subprocess ran and exited non-zero, an
output containing the `"ERR"` marker yields a 400 validation-failure
response with the extracted summary in the error field, while an output
with no marker yields a distinct 500 system-error response. -/
theorem c2_nonzero_exit_classified (form : Form) (env : Env)
    (hrun : Cmd.validateCmd ∈ (validateFiles form env).2.cmdsRun)
    (hexit : env.validateExitOk = false) :
    (strContains env.validateOutput errTok = true →
      (validateFiles form env).1.status = 400 ∧
      (validateFiles form env).1.success = false ∧
      (validateFiles form env).1.error = extractErrorMessage env.validateOutput) ∧
    (strContains env.validateOutput errTok = false →
      (validateFiles form env).1.status = 500 ∧
      (validateFiles form env).1.success = false ∧
      (validateFiles form env).1.error = env.validateErrMsg) := by
  unfold validateFiles at hrun ⊢
  repeat' split at hrun
  all_goals simp_all

/-- C2 witness: the classification at a concrete marker-bearing failure. -/
theorem c2_nonzero_exit_classified_witness :
    (validateFiles formWiringOnly envValidateFailErr).1.status = 400 ∧
    (validateFiles formWiringOnly envValidateFailErr).1.success = false ∧
    (validateFiles formWiringOnly envValidateFailErr).1.error =
      extractErrorMessage envValidateFailErr.validateOutput :=
  (c2_nonzero_exit_classified formWiringOnly envValidateFailErr
    (by decide) (by decide)).1 (by decide)

/-- C3: when the form parses but carries no wiring file, the handler
returns a 400 client error with success = false and the missing-wiring
message, creates no temporary directory, and runs no external command. -/
theorem c3_missing_wiring (form : Form) (env : Env)
    (hp : env.parseOk = true) (hw : form.wiringCount = 0) :
    (validateFiles form env).1.status = 400 ∧
    (validateFiles form env).1.success = false ∧
    (validateFiles form env).1.message = "Missing required wiring file".toList ∧
    (validateFiles form env).2.tempDirCreated = false ∧
    (validateFiles form env).2.cmdsRun = [] := by
  simp [validateFiles, hp, hw]

/-- C3 witness: the missing-wiring behaviour at a concrete empty form. -/
theorem c3_missing_wiring_witness :
    (validateFiles formEmpty envAllOk).1.status = 400 ∧
    (validateFiles formEmpty envAllOk).1.success = false ∧
    (validateFiles formEmpty envAllOk).1.message =
      "Missing required wiring file".toList ∧
    (validateFiles formEmpty envAllOk).2.tempDirCreated = false ∧
    (validateFiles formEmpty envAllOk).2.cmdsRun = [] :=
  c3_missing_wiring formEmpty envAllOk (by decide) (by decide)

/-- C4 counterexample: a request with the wiring file and no fab file whose
temporary-directory creation fails is answered with an empty use_case tag,
not `"uc1"`, so the claimed equivalence fails as stated. -/
theorem c4_counterexample :
    formWiringOnly.wiringCount = 1 ∧ formWiringOnly.fabCount = 0 ∧
    (validateFiles formWiringOnly envTempDirFail).1.useCase ≠ "uc1".toList := by
  decide

/-- C4 (amended): for every request with the wiring file, every response
that carries a non-empty use_case tag carries `"uc2"` exactly when a fab
file is present and `"uc1"` exactly when none is; responses aborted before
the tool steps leave the tag empty. -/
theorem c4_use_case_tag (form : Form) (env : Env)
    (_hw : 0 < form.wiringCount)
    (hne : (validateFiles form env).1.useCase ≠ []) :
    (validateFiles form env).1.useCase =
      (if 0 < form.fabCount then "uc2".toList else "uc1".toList) :=
  (useCase_cases form env).resolve_left hne

/-- C4 witness: the tag equation at a concrete two-file request. -/
theorem c4_use_case_tag_witness :
    (validateFiles formBothFiles envAllOk).1.useCase =
      (if 0 < formBothFiles.fabCount then "uc2".toList else "uc1".toList) :=
  c4_use_case_tag formBothFiles envAllOk (by decide) (by decide)

/-- C7: the wait on the `hhfab validate` subprocess is not bounded by the
declared 30-second `TimeoutSec`: with a subprocess that runs 31 seconds the
handler blocks for all 31 seconds, because `CombinedOutput()` is called
with no deadline and `TimeoutSec` is never applied. -/
theorem c7_wait_exceeds_timeout :
    TimeoutSec < (validateFiles formWiringOnly envSlowValidate).2.validateWaitSec := by
  decide

/-- C8: when the form parses and carries the wiring file but creating the
temporary directory or writing an uploaded file fails, the handler answers
with a 500 internal error, success = false, and no external command has
run. -/
theorem c8_prep_failure_aborts (form : Form) (env : Env)
    (hp : env.parseOk = true) (hw : form.wiringCount ≠ 0)
    (hfail : env.mkdirTempOk = false ∨ env.saveWiringOk = false ∨
      (0 < form.fabCount ∧ env.saveFabOk = false)) :
    (validateFiles form env).1.status = 500 ∧
    (validateFiles form env).1.success = false ∧
    (validateFiles form env).2.cmdsRun = [] := by
  rcases hfail with h1 | h2 | h3
  · simp [validateFiles, hp, hw, h1]
  · by_cases hm : env.mkdirTempOk = false
    · simp [validateFiles, hp, hw, hm]
    · simp [validateFiles, hp, hw, hm, h2]
  · obtain ⟨hfc, hsf⟩ := h3
    by_cases hm : env.mkdirTempOk = false
    · simp [validateFiles, hp, hw, hm]
    · by_cases hs : env.saveWiringOk = false
      · simp [validateFiles, hp, hw, hm, hs]
      · simp [validateFiles, hp, hw, hm, hs, hfc, hsf]

/-- C8 witness: the abort behaviour at a concrete temp-dir failure. -/
theorem c8_prep_failure_aborts_witness :
    (validateFiles formWiringOnly envTempDirFail).1.status = 500 ∧
    (validateFiles formWiringOnly envTempDirFail).1.success = false ∧
    (validateFiles formWiringOnly envTempDirFail).2.cmdsRun = [] :=
  c8_prep_failure_aborts formWiringOnly envTempDirFail
    (by decide) (by decide) (Or.inl (by decide))

/-- C9 counterexample: a failed validation whose output is exactly
`"ERR "` produces success = false with an empty error string, which
`omitempty` omits from the JSON — contradicting the claim that every
failure response carries a non-empty error field. -/
theorem c9_counterexample :
    (validateFiles formWiringOnly envValidateFailBareErr).1.success = false ∧
    errorFieldPresent (validateFiles formWiringOnly envValidateFailBareErr).1 = false := by
  decide

/-- C9 (amended): every success = true response omits the error field, and
every success = false response carries it, provided the environment error
strings are non-empty and the extracted summary is non-empty — the
validation-failure path can otherwise produce an empty, hence omitted,
error field. -/
theorem c9_error_field_presence (form : Form) (env : Env)
    (h1 : env.parseErrMsg ≠ []) (h2 : env.mkdirTempErrMsg ≠ [])
    (h3 : env.saveWiringErrMsg ≠ []) (h4 : env.saveFabErrMsg ≠ [])
    (h5 : env.mkdirWorkErrMsg ≠ []) (h6 : env.validateErrMsg ≠ [])
    (h7 : extractErrorMessage env.validateOutput ≠ []) :
    ((validateFiles form env).1.success = true →
      errorFieldPresent (validateFiles form env).1 = false) ∧
    ((validateFiles form env).1.success = false →
      errorFieldPresent (validateFiles form env).1 = true) := by
  constructor
  · intro hs
    rcases success_error_cases form env with ⟨_, he⟩ | ⟨h, _⟩
    · simp [errorFieldPresent, he]
    · rw [h] at hs; simp at hs
  · intro hs
    rcases success_error_cases form env with ⟨h, _⟩ | ⟨_, hd⟩
    · rw [h] at hs; simp at hs
    · rcases hd with he | he | he | he | he | he | he | he | he <;>
        simp [errorFieldPresent, he, bne_iff_ne, h1, h2, h3, h4, h5, h6, h7,
          initErrPref_ne_nil, wiringRequired_ne_nil]

/-- C9 witness: the presence rule at a concrete successful validation. -/
theorem c9_error_field_presence_witness :
    ((validateFiles formWiringOnly envAllOk).1.success = true →
      errorFieldPresent (validateFiles formWiringOnly envAllOk).1 = false) ∧
    ((validateFiles formWiringOnly envAllOk).1.success = false →
      errorFieldPresent (validateFiles formWiringOnly envAllOk).1 = true) :=
  c9_error_field_presence formWiringOnly envAllOk
    (by decide) (by decide) (by decide) (by decide) (by decide) (by decide) (by decide)
